import Mathlib

/-!
Verification of the mute-user chat-bot plugin (`src/plugin.py`) against its
natural-language specification.

The file shallowly embeds the logic of the plugin:
* `check_group_permission` / `check_user_permission` — the two permission
  gates (`MuteUserAction._check_group_permission`,
  `MuteUserCommand._check_user_permission`);
* `resolve_user_id` — the identity-resolution block of
  `MuteUserAction.execute` (digit check, directory lookup, attribute fetch);
* `get_template_message` — the template renderer shared (verbatim-duplicated)
  by both classes;
* `classify_response` — how the moderation client interprets the
  HTTP response (the nested `status_code` / `status` / `retcode` checks);
* `action_execute` / `command_execute` — the two entry points, as pure
  functions from an input record (configuration, oracles for the external
  collaborators, and the HTTP outcome) to the returned `(bool, reason)` pair
  together with the ordered list of externally visible events (collaborator
  calls, chat sends, the moderation HTTP call).

Python truthiness of strings is modelled by comparison with `""`; optional
values by `Option`; `random.choice` by an index reduced modulo the pool
length; the single HTTP round trip by an `HttpResult` oracle carried in the
input record.
-/

/-- Model of the Python `str.isdigit` check, restricted to the ASCII digits
that actually occur in the inputs of the plugin: true iff the string is nonempty and all characters
are digits. -/
def py_isdigit (s : String) : Bool :=
  !s.data.isEmpty && s.data.all Char.isDigit

/-- Embedding of `MuteUserAction._check_group_permission` (src/plugin.py
lines 79-92):
reject outside group chat; empty `permissions.allowed_groups` allows all;
otherwise allow iff `f"{platform}:{group_id}"` equals some entry. -/
def check_group_permission (is_group : Bool) (platform group_id : String)
    (allowed_groups : List String) : Bool × Option String :=
  if !is_group then
    (false, some "禁言动作只能在群聊中使用")
  else if allowed_groups.isEmpty then
    (true, none)
  else
    let current_group_key := platform ++ ":" ++ group_id
    if allowed_groups.contains current_group_key then
      (true, none)
    else
      (false, some "当前群组没有使用禁言动作的权限")

/-- Embedding of `MuteUserCommand._check_user_permission` (src/plugin.py
lines 269-285):
reject when the chat stream is unavailable; empty `permissions.allowed_users`
allows all; otherwise allow iff `f"{platform}:{user_id}"` equals some entry. -/
def check_user_permission (has_chat_stream : Bool) (platform user_id : String)
    (allowed_users : List String) : Bool × Option String :=
  if !has_chat_stream then
    (false, some "无法获取聊天流信息")
  else if allowed_users.isEmpty then
    (true, none)
  else
    let current_user_key := platform ++ ":" ++ user_id
    if allowed_users.contains current_user_key then
      (true, none)
    else
      (false, some "你没有使用禁言命令的权限")

/-- Externally visible events of one entry-point invocation, in program
order: directory lookup (`person_api.get_person_id_by_name`), attribute
fetch (`person_api.get_person_value`), reply rewriting
(`generator_api.rewrite_reply`, carrying the raw reply), chat send
(`send_text`), the moderation HTTP POST (carrying the payload fields), and
`store_action_info` (carrying the prompt display). -/
inductive Event where
  | resolverLookup (name : String)
  | attrFetch (person_id : String)
  | rewriteReply (raw_reply : String)
  | sendText (msg : String)
  | httpCall (group_id user_id : String) (duration : Int)
  | storeAction (display : String)
deriving DecidableEq, Repr

/-- The identity-resolution block of `MuteUserAction.execute`
(src/plugin.py lines 107-131): an all-digit target is the user id itself;
otherwise one directory lookup by name and, when it yields a truthy person
id, one attribute fetch of `"user_id"`. The oracles return `""` for a
falsy/absent Python result. Returns the resolved id (or `none`) and the
collaborator-call events in order. -/
def resolve_user_id (target : String) (person_lookup person_value : String → String) :
    Option String × List Event :=
  if py_isdigit target then
    (some target, [])
  else
    let person_id := person_lookup target
    if person_id ≠ "" then
      let real_user_id := person_value person_id
      if real_user_id ≠ "" then
        (some real_user_id, [Event.resolverLookup target, Event.attrFetch person_id])
      else
        (none, [Event.resolverLookup target, Event.attrFetch person_id])
    else
      (none, [Event.resolverLookup target])

/-- A message template: the parse of a Python format string into literal
runs and `\x7bplaceholder\x7d` fields. -/
inductive TemplatePart where
  | lit (s : String)
  | ph (key : String)
deriving DecidableEq, Repr

abbrev Template := List TemplatePart

/-- The `mute.templates` config value: a dict with optional `"mute"` and
`"unmute"` lists (`all_templates.get("mute")` may be `None`). -/
structure TemplateDict where
  mute : Option (List Template)
  unmute : Option (List Template)
deriving DecidableEq

/-- The substitution context built in `_get_template_message`
(src/plugin.py lines 242-248 and 380-386): `user_id`, `target` and
`user_name` all map to the resolved id, `duration` to the pre-rendered
duration display, `reason` to the reason; any other key is absent
(Python `format_map` raises `KeyError`). -/
def template_context (user_id duration_disp reason : String) (k : String) :
    Option String :=
  if k = "user_id" then some user_id
  else if k = "target" then some user_id
  else if k = "user_name" then some user_id
  else if k = "duration" then some duration_disp
  else if k = "reason" then some reason
  else none

/-- Model of `str.format_map` on a parsed template: concatenate literals and looked-up
fields, failing with the first missing key (the Python `KeyError`). -/
def format_map : Template → (String → Option String) → Except String String
  | [], _ => Except.ok ""
  | TemplatePart.lit s :: rest, ctx => (format_map rest ctx).map (fun t => s ++ t)
  | TemplatePart.ph k :: rest, ctx =>
    match ctx k with
    | none => Except.error k
    | some v => (format_map rest ctx).map (fun t => v ++ t)

/-- Pool selection in `_get_template_message` (src/plugin.py lines 221-230):
`all_templates.get("mute")` when `duration > 0`, else
`all_templates.get("unmute")`; `None` when the dict itself is falsy. -/
def selected_templates (all_templates : Option TemplateDict) (duration : Int) :
    Option (List Template) :=
  if duration > 0 then all_templates.bind TemplateDict.mute
  else all_templates.bind TemplateDict.unmute

/-- Embedding of `_get_template_message` (src/plugin.py lines 216-256, duplicated at
360-392): select the pool by action kind; on a falsy pool return the fixed
default sentence; otherwise take the template selected by `random.choice`
(modelled by `choice` reduced modulo the pool length) and `format_map` it
over `template_context`, falling back to the degraded sentence on a
`KeyError`. The duration display is the raw `f"{duration}秒"`. -/
def get_template_message (all_templates : Option TemplateDict) (choice : Nat)
    (user_id : String) (duration : Int) (reason : String) : String :=
  let action_text := if duration > 0 then "禁言" else "解除禁言"
  match selected_templates all_templates duration with
  | none =>
    "操作已执行：对用户 " ++ user_id ++ " " ++ action_text ++ "，时长：" ++
      toString duration ++ "秒，原因：" ++ reason
  | some [] =>
    "操作已执行：对用户 " ++ user_id ++ " " ++ action_text ++ "，时长：" ++
      toString duration ++ "秒，原因：" ++ reason
  | some (t :: ts) =>
    let template := (t :: ts).get ⟨choice % (ts.length + 1), Nat.mod_lt _ (Nat.succ_pos _)⟩
    match format_map template (template_context user_id (toString duration ++ "秒") reason) with
    | Except.ok m => m
    | Except.error _ =>
      "操作已执行，但消息模板格式化失败。用户：" ++ user_id ++ "，原因：" ++ reason

/-- Body fields read from the moderation response JSON:
`resp_json.get("status")` and `resp_json.get("retcode")`. -/
structure RespBody where
  status : Option String
  retcode : Option Int
deriving DecidableEq, Repr

/-- Outcome of the single `httpx` POST: either a response (with status code
and, when the body parses as JSON, its fields; `none` for a body on which
`response.json()` raises) or a transport exception. -/
inductive HttpResult where
  | response (status_code : Nat) (body : Option RespBody)
  | exception (msg : String)
deriving DecidableEq, Repr

/-- Classification of a moderation interaction, with one constructor per
distinct error branch of the code. -/
inductive ApiOutcome where
  | success
  | apiFailure
  | httpFailure
  | transportError
deriving DecidableEq, Repr

/-- How the moderation client interprets the HTTP interaction
(src/plugin.py lines 185-213 and 326-353): success iff status code 200 and
body `status == "ok"` and `retcode == 0`; 200 with any other body fields is
the API-failure branch; a non-200 code is the HTTP-failure branch (the body
is never parsed there); a transport exception — or `response.json()`
raising on a malformed 200 body, caught by the same `except` — is the
exception branch. -/
def classify_response : HttpResult → ApiOutcome
  | HttpResult.exception _ => ApiOutcome.transportError
  | HttpResult.response status_code body =>
    if status_code = 200 then
      match body with
      | none => ApiOutcome.transportError
      | some b =>
        if b.status = some "ok" && b.retcode = some 0 then ApiOutcome.success
        else ApiOutcome.apiFailure
    else ApiOutcome.httpFailure

/-- The literal (non-f-string) `raw_reply` passed to `rewrite_reply` in the
no-permission branch of `MuteUserAction.execute` (src/plugin.py line 142);
the braces and quotes are part of the string in the source. -/
def no_permission_raw : String :=
  "我想\x7b\x27禁言\x27 if duration > 0 else \x27解除禁言\x27\x7d用户 \x7buser_id\x7d，但是我没有权限"

/-- Inputs of one `MuteUserAction.execute` invocation: the chat context,
the configuration, the `action_data` parameters, and oracles for the
external collaborators (directory, attribute store, reply rewriter — all
pure for a single invocation) plus the HTTP outcome and the
`random.choice` index. -/
structure ActionInput where
  is_group : Bool
  platform : String
  group_id : Option String
  allowed_groups : List String
  user_id_param : Option String
  duration : Int
  reason : String
  person_lookup : String → String
  person_value : String → String
  rewrite : String → Option String
  templates : Option TemplateDict
  template_choice : Nat
  http : HttpResult

/-- The events of one `rewrite_reply` round trip followed by the
`send_text` loop over its segments (src/plugin.py lines 139-149, 156-166):
the rewrite call itself, then a send of the rewritten text when the
rewriter reports success. -/
def rewrite_events (rewrite : String → Option String) (raw : String) : List Event :=
  Event.rewriteReply raw ::
    (match rewrite raw with
     | some t => [Event.sendText t]
     | none => [])

/-- Embedding of `MuteUserAction.execute` (src/plugin.py lines 94-213) as a pure
function: permission check first (result consulted only later), empty-target
check, identity resolution, template rendering, the no-permission branch,
reply rewriting, group-id check, then the moderation POST and its
classification. Returns the `(bool, reason)` result and the ordered
event list. -/
def action_execute (a : ActionInput) : (Bool × Option String) × List Event :=
  let perm := check_group_permission a.is_group a.platform (a.group_id.getD "None")
    a.allowed_groups
  let has_permission := perm.1
  let permission_error := perm.2
  let user_id_or_name := a.user_id_param.getD ""
  if user_id_or_name = "" then
    ((false, some "用户不能为空"), [Event.sendText "没有指定要禁言的用户呢~"])
  else
    let res := resolve_user_id user_id_or_name a.person_lookup a.person_value
    match res.1 with
    | none =>
      ((false, some ("无法解析用户 \x27" ++ user_id_or_name ++ "\x27")),
        res.2 ++ [Event.sendText ("找不到用户 \x27" ++ user_id_or_name ++ "\x27 呢~")])
    | some user_id =>
      let message := get_template_message a.templates a.template_choice user_id
        a.duration a.reason
      let action_text := if a.duration > 0 then "禁言" else "解除禁言"
      if !has_permission then
        ((false, permission_error),
          res.2 ++ rewrite_events a.rewrite no_permission_raw ++
            [Event.storeAction ("尝试" ++ action_text ++ "用户 " ++ user_id ++
              "，但是没有权限，无法操作")])
      else
        let sent := res.2 ++ rewrite_events a.rewrite message
        match a.group_id with
        | none =>
          ((false, some "无法获取群聊ID"),
            sent ++ [Event.sendText "执行禁言动作失败（群ID缺失）"])
        | some group_id =>
          let sent := sent ++ [Event.httpCall group_id user_id a.duration]
          match a.http with
          | HttpResult.exception e =>
            ((false, some ("Napcat API请求异常: " ++ e)),
              sent ++ [Event.sendText "执行禁言动作失败（API异常）"])
          | HttpResult.response status_code body =>
            if status_code = 200 then
              match body with
              | none =>
                ((false, some "Napcat API请求异常: JSONDecodeError"),
                  sent ++ [Event.sendText "执行禁言动作失败（API异常）"])
              | some b =>
                if b.status = some "ok" && b.retcode = some 0 then
                  ((true, some ("成功" ++ action_text ++ "用户 " ++ user_id)),
                    sent ++ [Event.storeAction ("尝试" ++ action_text ++ "用户 " ++
                      user_id ++ "，原因：" ++ a.reason)])
                else
                  ((false, some ("Napcat API返回失败: status=" ++
                      toString b.status ++ " retcode=" ++ toString b.retcode)),
                    sent ++ [Event.sendText "执行禁言动作失败（API返回失败）"])
            else
              ((false, some ("Napcat API请求失败: HTTP " ++ toString status_code)),
                sent ++ [Event.sendText "执行禁言动作失败（API请求失败）"])

/-- Model of Python `int()` on the digit strings captured by the `\x5cd+`
groups of the command pattern (base-10 positional value). -/
def parse_digits (s : String) : Nat :=
  s.data.foldl (fun a c => a * 10 + (c.toNat - 48)) 0

/-- The duration computation of `MuteUserCommand.execute`
(src/plugin.py lines 297-302): for `/mute`, the digits captured by the
regex parsed as an integer when present, else the configured
`mute_command.default_duration`; for `/unmute`, the constant 0. -/
def command_duration (command : String) (duration_str : Option String)
    (default_duration : Int) : Int :=
  if command = "mute" then
    match duration_str with
    | some s => (parse_digits s : Int)
    | none => default_duration
  else 0

/-- Inputs of one `MuteUserCommand.execute` invocation: the chat context,
the configuration, and the named groups captured by `command_pattern`
(`command` is `"mute"` or `"unmute"`, `user_id` and `duration` are digit
strings when present), plus the HTTP outcome and the `random.choice`
index. -/
structure CommandInput where
  has_chat_stream : Bool
  platform : String
  actor_user_id : String
  allowed_users : List String
  command : String
  user_id : Option String
  duration_str : Option String
  reason : Option String
  default_duration : Int
  group_id : Option String
  templates : Option TemplateDict
  template_choice : Nat
  http : HttpResult

/-- Embedding of `MuteUserCommand.execute` (src/plugin.py lines 287-353) as a pure
function: permission check (immediate return on denial), duration and
reason extraction, user-id presence check, group-id check, then the
moderation POST; the success template message is rendered and sent only
inside the success branch. -/
def command_execute (c : CommandInput) : (Bool × Option String) × List Event :=
  let perm := check_user_permission c.has_chat_stream c.platform c.actor_user_id
    c.allowed_users
  if !perm.1 then
    ((false, perm.2), [Event.sendText ("❌ " ++ perm.2.getD "")])
  else
    let duration := command_duration c.command c.duration_str c.default_duration
    let reason := c.reason.getD "管理员操作"
    if c.user_id.getD "" = "" then
      ((false, some "参数不完整"), [Event.sendText "❌ 命令参数不完整，请检查格式"])
    else
      let user_id := c.user_id.getD ""
      match c.group_id with
      | none =>
        ((false, some "群聊ID缺失"), [Event.sendText "❌ 无法获取群聊ID"])
      | some group_id =>
        let sent := [Event.httpCall group_id user_id duration]
        match c.http with
        | HttpResult.exception e =>
          ((false, some ("Napcat API请求异常: " ++ e)),
            sent ++ [Event.sendText "❌ 发送禁言命令失败（API异常）"])
        | HttpResult.response status_code body =>
          if status_code = 200 then
            match body with
            | none =>
              ((false, some "Napcat API请求异常: JSONDecodeError"),
                sent ++ [Event.sendText "❌ 发送禁言命令失败（API异常）"])
            | some b =>
              if b.status = some "ok" && b.retcode = some 0 then
                let message := get_template_message c.templates c.template_choice
                  user_id duration reason
                ((true, some ("成功" ++
                    (if duration > 0 then "禁言" else "解除禁言") ++ "用户 " ++ user_id)),
                  sent ++ [Event.sendText message])
              else
                ((false, some ("Napcat API返回失败: status=" ++
                    toString b.status ++ " retcode=" ++ toString b.retcode)),
                  sent ++ [Event.sendText "❌ 发送禁言命令失败（API返回失败）"])
          else
            ((false, some ("Napcat API请求失败: HTTP " ++ toString status_code)),
              sent ++ [Event.sendText "❌ 发送禁言命令失败（API请求失败）"])

/-- Whether an event is the moderation HTTP POST. -/
def is_http_call : Event → Bool
  | Event.httpCall _ _ _ => true
  | _ => false

/-- Whether a trace contains the moderation HTTP POST. -/
def made_http_call (events : List Event) : Bool :=
  events.any is_http_call

/-- Spec-side definition, for comparison with `get_template_message`: the
human-scaled duration display the spec describes (seconds below 60, floor
minutes below 3600, floor hours below 86400, floor days otherwise). -/
def spec_human_scaled (seconds : Int) : String :=
  if seconds < 60 then toString seconds ++ "秒"
  else if seconds < 3600 then toString (seconds / 60) ++ "分钟"
  else if seconds < 86400 then toString (seconds / 3600) ++ "小时"
  else toString (seconds / 86400) ++ "天"

/-- A denied group gate always carries a denial reason. -/
lemma group_perm_reason_of_denied (ig : Bool) (p g : String) (al : List String)
    (h : (check_group_permission ig p g al).1 = false) :
    ((check_group_permission ig p g al).2).isSome = true := by
  unfold check_group_permission at h ⊢
  split at h
  · simp_all
  · split at h
    · simp_all
    · by_cases hc : al.contains (p ++ ":" ++ g) = true <;> simp_all

/-- A denied user gate always carries a denial reason. -/
lemma user_perm_reason_of_denied (hs : Bool) (p u : String) (al : List String)
    (h : (check_user_permission hs p u al).1 = false) :
    ((check_user_permission hs p u al).2).isSome = true := by
  unfold check_user_permission at h ⊢
  split at h
  · simp_all
  · split at h
    · simp_all
    · by_cases hc : al.contains (p ++ ":" ++ u) = true <;> simp_all

/-- An all-digit target resolves to itself with no collaborator calls. -/
lemma resolve_digit_eq (t : String) (l v : String → String)
    (h : py_isdigit t = true) :
    resolve_user_id t l v = (some t, []) := by
  unfold resolve_user_id
  simp [h]

/-- The resolver never performs the moderation HTTP call. -/
lemma resolve_events_no_http (t : String) (l v : String → String)
    (g u : String) (d : Int) :
    Event.httpCall g u d ∉ (resolve_user_id t l v).2 := by
  unfold resolve_user_id
  by_cases h1 : py_isdigit t = true
  · simp [h1]
  · by_cases h2 : l t ≠ ""
    · by_cases h3 : v (l t) ≠ "" <;> simp [h1, h2, h3]
    · simp [h1, h2]

/-- The rewrite-and-send block never performs the moderation HTTP call. -/
lemma rewrite_events_no_http (rw : String → Option String) (raw : String)
    (g u : String) (d : Int) :
    Event.httpCall g u d ∉ rewrite_events rw raw := by
  unfold rewrite_events
  cases rw raw <;> simp

/-- C9: a target string consisting entirely of digits is returned unchanged
as the resolved user id, and neither the directory lookup nor the attribute
fetch is invoked (the event list is empty). -/
theorem c9_numeric_target_resolves_directly (t : String)
    (person_lookup person_value : String → String)
    (h : py_isdigit t = true) :
    resolve_user_id t person_lookup person_value = (some t, []) :=
  resolve_digit_eq t person_lookup person_value h

/-- Witness for C9 at the concrete target `"12345"`. -/
theorem c9_numeric_target_resolves_directly_witness :
    py_isdigit "12345" = true ∧
    resolve_user_id "12345" (fun _ => "p1") (fun _ => "77") = (some "12345", []) :=
  ⟨by decide, c9_numeric_target_resolves_directly "12345" _ _ (by decide)⟩

/-- C5: both permission gates (group gate under a group context, user gate
under an available chat stream) allow every key when the configured
allow-list is empty, and for a non-empty allow-list allow exactly the keys
`platform ++ ":" ++ id` that occur verbatim in the list. -/
theorem c5_permission_gate_exact_match (platform id : String)
    (allowed : List String) :
    (allowed = [] →
      (check_group_permission true platform id allowed).1 = true ∧
      (check_user_permission true platform id allowed).1 = true) ∧
    (allowed ≠ [] →
      ((check_group_permission true platform id allowed).1 = true ↔
        (platform ++ ":" ++ id) ∈ allowed) ∧
      ((check_user_permission true platform id allowed).1 = true ↔
        (platform ++ ":" ++ id) ∈ allowed)) := by
  constructor
  · rintro rfl
    constructor <;> rfl
  · intro h
    have he : allowed.isEmpty = false := by
      cases allowed with
      | nil => exact absurd rfl h
      | cons a l => rfl
    constructor
    · unfold check_group_permission
      simp only [he, Bool.not_true, Bool.false_eq_true, if_false]
      split <;> simp_all
    · unfold check_user_permission
      simp only [he, Bool.not_true, Bool.false_eq_true, if_false]
      split <;> simp_all

/-- Witness for C5 at a present key, an absent key, and an empty list. -/
theorem c5_permission_gate_exact_match_witness :
    (check_group_permission true "qq" "1" []).1 = true ∧
    (check_group_permission true "qq" "1" ["qq:1"]).1 = true ∧
    (check_user_permission true "qq" "2" ["qq:1"]).1 ≠ true :=
  ⟨(c5_permission_gate_exact_match "qq" "1" [] |>.1 rfl).1,
   ((c5_permission_gate_exact_match "qq" "1" ["qq:1"]).2 (by decide)).1.mpr (by decide),
   fun h => by
     have := ((c5_permission_gate_exact_match "qq" "2" ["qq:1"]).2 (by decide)).2.mp h
     exact absurd this (by decide)⟩

/-- C4: the moderation interaction is classified as success exactly when the
HTTP status is 200 and the body has `status = "ok"` and `retcode = 0`; a
non-200 response, a 200 response with other body fields, and a transport
exception each land in their own distinct failure class; and, on an
invocation of the Action that reaches the call (resolved target, allowed
gate, group id present), the returned success flag coincides with this
classification. -/
theorem c4_moderation_success_classification :
    (∀ r : HttpResult, classify_response r = ApiOutcome.success ↔
      ∃ b : RespBody, r = HttpResult.response 200 (some b) ∧
        b.status = some "ok" ∧ b.retcode = some 0) ∧
    (∀ (code : Nat) (body : Option RespBody), code ≠ 200 →
      classify_response (HttpResult.response code body) = ApiOutcome.httpFailure) ∧
    (∀ b : RespBody, ¬(b.status = some "ok" ∧ b.retcode = some 0) →
      classify_response (HttpResult.response 200 (some b)) = ApiOutcome.apiFailure) ∧
    (∀ e : String,
      classify_response (HttpResult.exception e) = ApiOutcome.transportError) ∧
    (∀ (a : ActionInput) (t g : String),
      a.user_id_param = some t → py_isdigit t = true → a.group_id = some g →
      (check_group_permission a.is_group a.platform g a.allowed_groups).1 = true →
      ((action_execute a).1.1 = true ↔ classify_response a.http = ApiOutcome.success)) := by
  refine ⟨?_, ?_, ?_, ?_, ?_⟩
  · intro r
    match r with
    | HttpResult.exception e => simp [classify_response]
    | HttpResult.response code body =>
      by_cases hc : code = 200
      · subst hc
        match body with
        | none => simp [classify_response]
        | some b =>
          by_cases hs : b.status = some "ok" ∧ b.retcode = some 0
          · simp [classify_response, hs.1, hs.2]
          · have hb : (decide (b.status = some "ok") && decide (b.retcode = some 0)) ≠ true := by
              intro hh
              simp only [Bool.and_eq_true, decide_eq_true_eq] at hh
              exact hs hh
            simp only [classify_response, if_neg hb]
            constructor
            · intro hfalse
              exact absurd hfalse (by simp)
            · rintro ⟨b', hb', h1, h2⟩
              injection hb' with _ hbody
              injection hbody with hbb
              subst hbb
              exact absurd ⟨h1, h2⟩ hs
      · simp [classify_response, hc]
  · intro code body hc
    simp [classify_response, hc]
  · intro b hs
    have hb : (decide (b.status = some "ok") && decide (b.retcode = some 0)) ≠ true := by
      intro hh
      simp only [Bool.and_eq_true, decide_eq_true_eq] at hh
      exact hs hh
    simp [classify_response, hb]
  · intro e
    simp [classify_response]
  · intro a t g h1 h2 h3 h4
    have ht : t ≠ "" := by
      intro e
      subst e
      simp [py_isdigit] at h2
    unfold action_execute
    rw [h1, h3]
    simp only [Option.getD_some, if_neg ht]
    rw [resolve_digit_eq t _ _ h2]
    simp only [h4, Bool.not_true, Bool.false_eq_true, if_false]
    cases ha : a.http with
    | exception e => simp [classify_response]
    | response code body =>
      unfold classify_response
      by_cases hc : code = 200
      · subst hc
        match body with
        | none => simp
        | some b =>
          by_cases hb : (decide (b.status = some "ok") && decide (b.retcode = some 0)) = true
          · simp [hb]
          · simp [hb]
      · simp [hc]

/-- Concrete Action input for the C4 witness: open permissions, numeric
target, group present, successful moderation response. -/
def c4_action_input : ActionInput :=
  { is_group := true, platform := "qq", group_id := some "g1",
    allowed_groups := [], user_id_param := some "123", duration := 600,
    reason := "r", person_lookup := fun _ => "", person_value := fun _ => "",
    rewrite := fun _ => none, templates := none, template_choice := 0,
    http := HttpResult.response 200 (some ⟨some "ok", some 0⟩) }

/-- Witness for C4 at a success response, an HTTP 500, a bad-retcode body,
an exception, and a concrete Action invocation. -/
theorem c4_moderation_success_classification_witness :
    classify_response (HttpResult.response 200 (some ⟨some "ok", some 0⟩)) =
      ApiOutcome.success ∧
    classify_response (HttpResult.response 500 none) = ApiOutcome.httpFailure ∧
    classify_response (HttpResult.response 200 (some ⟨some "ok", some 100⟩)) =
      ApiOutcome.apiFailure ∧
    classify_response (HttpResult.exception "timeout") = ApiOutcome.transportError ∧
    ((action_execute c4_action_input).1.1 = true ↔
      classify_response (HttpResult.response 200 (some ⟨some "ok", some 0⟩)) =
        ApiOutcome.success) :=
  ⟨(c4_moderation_success_classification.1 _).mpr ⟨⟨some "ok", some 0⟩, rfl, rfl, rfl⟩,
   c4_moderation_success_classification.2.1 500 none (by decide),
   c4_moderation_success_classification.2.2.1 ⟨some "ok", some 100⟩ (by simp),
   c4_moderation_success_classification.2.2.2.1 "timeout",
   c4_moderation_success_classification.2.2.2.2 c4_action_input "123" "g1" rfl
     (by decide) rfl (by decide)⟩

/-- A placeholder key outside the recognized set is absent from the
substitution context. -/
lemma template_context_none_of_unknown (uid dd r k : String)
    (h : k ∉ ["user_id", "target", "user_name", "duration", "reason"]) :
    template_context uid dd r k = none := by
  simp only [List.mem_cons, List.not_mem_nil, or_false, not_or] at h
  obtain ⟨h1, h2, h3, h4, h5⟩ := h
  simp [template_context, h1, h2, h3, h4, h5]

/-- The function `format_map` fails whenever the template mentions a key absent from the
context. -/
lemma format_map_error_of_missing (t : Template) (ctx : String → Option String)
    (k : String) (hk : TemplatePart.ph k ∈ t) (hc : ctx k = none) :
    ∃ e, format_map t ctx = Except.error e := by
  induction t with
  | nil => simp at hk
  | cons p rest ih =>
    cases p with
    | lit s =>
      have hk' : TemplatePart.ph k ∈ rest := by
        rcases List.mem_cons.mp hk with h | h
        · cases h
        · exact h
      obtain ⟨e, he⟩ := ih hk'
      exact ⟨e, by simp [format_map, he, Except.map]⟩
    | ph k2 =>
      cases hck : ctx k2 with
      | none => exact ⟨k2, by simp [format_map, hck]⟩
      | some v =>
        have hk' : TemplatePart.ph k ∈ rest := by
          rcases List.mem_cons.mp hk with h | h
          · injection h with hkk
            subst hkk
            rw [hck] at hc
            cases hc
          · exact h
        obtain ⟨e, he⟩ := ih hk'
        exact ⟨e, by simp [format_map, hck, he, Except.map]⟩

/-- C7: when the selected template pool is absent or empty the renderer
returns the fixed default sentence embedding the identifier, the action
kind, the duration and the reason; when the pool is non-empty and the
chosen template references a placeholder outside the recognized set
(`user_id`/`target`/`user_name`/`duration`/`reason`), the renderer returns
the degraded sentence containing the identifier and the reason instead of
raising. -/
theorem c7_renderer_fallback_behaviour (all : Option TemplateDict)
    (choice : Nat) (uid : String) (d : Int) (r : String) :
    (selected_templates all d = none ∨ selected_templates all d = some [] →
      get_template_message all choice uid d r =
        "操作已执行：对用户 " ++ uid ++ " " ++
          (if d > 0 then "禁言" else "解除禁言") ++ "，时长：" ++
          toString d ++ "秒，原因：" ++ r) ∧
    (∀ (t : Template) (ts : List Template),
      selected_templates all d = some (t :: ts) →
      (∃ k, TemplatePart.ph k ∈
          (t :: ts).get ⟨choice % (ts.length + 1), Nat.mod_lt _ (Nat.succ_pos _)⟩ ∧
        k ∉ ["user_id", "target", "user_name", "duration", "reason"]) →
      get_template_message all choice uid d r =
        "操作已执行，但消息模板格式化失败。用户：" ++ uid ++ "，原因：" ++ r) := by
  constructor
  · intro h
    unfold get_template_message
    rcases h with h | h <;> rw [h]
  · rintro t ts hsel ⟨k, hk, hnk⟩
    unfold get_template_message
    rw [hsel]
    have hctx : template_context uid (toString d ++ "秒") r k = none :=
      template_context_none_of_unknown uid (toString d ++ "秒") r k hnk
    obtain ⟨e, he⟩ := format_map_error_of_missing _ _ k hk hctx
    simp only [he]

/-- Witness for C7: an absent pool yields the default sentence; a pool whose
only template references the unknown key `"foo"` yields the degraded
sentence. -/
theorem c7_renderer_fallback_behaviour_witness :
    get_template_message none 0 "u" 5 "r" =
      "操作已执行：对用户 " ++ "u" ++ " " ++
        (if (5 : Int) > 0 then "禁言" else "解除禁言") ++ "，时长：" ++
        toString (5 : Int) ++ "秒，原因：" ++ "r" ∧
    get_template_message (some ⟨some [[TemplatePart.ph "foo"]], none⟩) 0 "u" 5 "r" =
      "操作已执行，但消息模板格式化失败。用户：" ++ "u" ++ "，原因：" ++ "r" :=
  ⟨(c7_renderer_fallback_behaviour none 0 "u" 5 "r").1 (Or.inl (by decide)),
   (c7_renderer_fallback_behaviour (some ⟨some [[TemplatePart.ph "foo"]], none⟩)
       0 "u" 5 "r").2 [TemplatePart.ph "foo"] [] (by decide)
     ⟨"foo", by decide, by decide⟩⟩

/-- Template dictionary whose only template, in both pools, is the bare
`\x7bduration\x7d` placeholder; used to exhibit the rendered duration text. -/
def c6_template_dict : TemplateDict :=
  ⟨some [[TemplatePart.ph "duration"]], some [[TemplatePart.ph "duration"]]⟩

/-- C6 counterexample: at 3661 seconds the rendered message embeds the raw
seconds count `"3661秒"`, not the floor-scaled `"1小时"` the claim requires
for the hours bucket. -/
theorem c6_counterexample_raw_seconds_display :
    get_template_message (some c6_template_dict) 0 "123" 3661 "r" = "3661秒" ∧
    spec_human_scaled 3661 = "1" ++ "小时" ∧
    ("3661秒" : String) ≠ "1" ++ "小时" :=
  ⟨by decide, by decide, by decide⟩

/-- C6 amended: the renderer always embeds the duration as the raw
`f"{duration}秒"` seconds string — no human-unit scaling is performed for
any duration value. -/
theorem c6_amended_raw_seconds_display (d : Int) (choice : Nat) (uid r : String) :
    get_template_message (some c6_template_dict) choice uid d r =
      toString d ++ "秒" := by
  unfold get_template_message selected_templates c6_template_dict
  by_cases hd : d > 0 <;>
    simp [hd, format_map, template_context, Nat.mod_one, Except.map,
      String.append_empty]

/-- Inversion of the moderation call of the Action: a `httpCall` event can
only arise with an allowed gate, a successfully resolved target equal to
the payload user id, the group id equal to the payload group id, and the
raw input duration as the payload duration. -/
lemma action_http_call_inversion (a : ActionInput) (g u : String) (d : Int)
    (h : Event.httpCall g u d ∈ (action_execute a).2) :
    (check_group_permission a.is_group a.platform (a.group_id.getD "None")
      a.allowed_groups).1 = true ∧
    (resolve_user_id (a.user_id_param.getD "") a.person_lookup a.person_value).1 =
      some u ∧
    a.group_id = some g ∧ d = a.duration := by
  simp only [action_execute] at h
  repeat' split at h
  all_goals simp_all [List.mem_append, resolve_events_no_http, rewrite_events_no_http]

/-- On a denied gate or a failed resolution the Action returns failure with
a reason and performs no moderation call. -/
lemma action_failure_no_call (a : ActionInput)
    (h : (check_group_permission a.is_group a.platform (a.group_id.getD "None")
        a.allowed_groups).1 = false ∨
      (resolve_user_id (a.user_id_param.getD "") a.person_lookup a.person_value).1 =
        none) :
    (action_execute a).1.1 = false ∧ ((action_execute a).1.2).isSome = true ∧
    ∀ (g u : String) (d : Int), Event.httpCall g u d ∉ (action_execute a).2 := by
  refine ⟨?_, ?_, ?_⟩
  · rcases h with h | h <;>
      · simp only [action_execute]
        repeat' split
        all_goals simp_all
  · rcases h with h | h
    · simp only [action_execute]
      repeat' split
      all_goals
        first
        | exact group_perm_reason_of_denied _ _ _ _ h
        | simp_all
    · simp only [action_execute]
      repeat' split
      all_goals simp_all
  · intro g u d hmem
    obtain ⟨h1, h2, _, _⟩ := action_http_call_inversion a g u d hmem
    rcases h with h | h
    · rw [h1] at h
      cases h
    · rw [h2] at h
      cases h

/-- Inversion of the moderation call of the Command: a `httpCall` event can
only arise with an allowed gate, a present nonempty user id equal to the
payload user id, the group id equal to the payload group id, and the
computed (unnormalized) duration as the payload duration. -/
lemma command_http_call_inversion (c : CommandInput) (g u : String) (d : Int)
    (h : Event.httpCall g u d ∈ (command_execute c).2) :
    (check_user_permission c.has_chat_stream c.platform c.actor_user_id
      c.allowed_users).1 = true ∧
    c.user_id = some u ∧ u ≠ "" ∧ c.group_id = some g ∧
    d = command_duration c.command c.duration_str c.default_duration := by
  simp only [command_execute] at h
  repeat' split at h
  all_goals simp_all
  all_goals
    cases hu : c.user_id <;> simp_all

/-- On a denied gate the Command returns failure with the denial reason and
its only event is the denial notice. -/
lemma command_denied_eq (c : CommandInput)
    (h : (check_user_permission c.has_chat_stream c.platform c.actor_user_id
      c.allowed_users).1 = false) :
    command_execute c =
      ((false, (check_user_permission c.has_chat_stream c.platform c.actor_user_id
          c.allowed_users).2),
        [Event.sendText ("❌ " ++
          ((check_user_permission c.has_chat_stream c.platform c.actor_user_id
            c.allowed_users).2).getD "")]) := by
  simp only [command_execute, h, Bool.not_false, if_true]

/-- A successful Command invocation sends the rendered template message,
built from the computed duration, as a chat message. -/
lemma command_success_sends_message (c : CommandInput)
    (h : (command_execute c).1.1 = true) :
    Event.sendText (get_template_message c.templates c.template_choice
        (c.user_id.getD "")
        (command_duration c.command c.duration_str c.default_duration)
        (c.reason.getD "管理员操作")) ∈ (command_execute c).2 := by
  simp only [command_execute] at h ⊢
  repeat' split at h
  all_goals simp_all

/-- C1: in both entry points the moderation HTTP call only happens with an
allowed permission gate and a successfully resolved/present target, and on
a denied gate or failed resolution the entry point returns `(false, reason)`
with no moderation call in its event trace. -/
theorem c1_call_only_after_resolution_and_permission
    (a : ActionInput) (c : CommandInput) :
    (∀ (g u : String) (d : Int), Event.httpCall g u d ∈ (action_execute a).2 →
      (check_group_permission a.is_group a.platform (a.group_id.getD "None")
        a.allowed_groups).1 = true ∧
      (resolve_user_id (a.user_id_param.getD "") a.person_lookup a.person_value).1 =
        some u) ∧
    ((check_group_permission a.is_group a.platform (a.group_id.getD "None")
        a.allowed_groups).1 = false ∨
      (resolve_user_id (a.user_id_param.getD "") a.person_lookup a.person_value).1 =
        none →
      (action_execute a).1.1 = false ∧ ((action_execute a).1.2).isSome = true ∧
      ∀ (g u : String) (d : Int), Event.httpCall g u d ∉ (action_execute a).2) ∧
    (∀ (g u : String) (d : Int), Event.httpCall g u d ∈ (command_execute c).2 →
      (check_user_permission c.has_chat_stream c.platform c.actor_user_id
        c.allowed_users).1 = true ∧ c.user_id = some u) ∧
    ((check_user_permission c.has_chat_stream c.platform c.actor_user_id
        c.allowed_users).1 = false →
      (command_execute c).1.1 = false ∧ ((command_execute c).1.2).isSome = true ∧
      ∀ (g u : String) (d : Int), Event.httpCall g u d ∉ (command_execute c).2) := by
  refine ⟨?_, action_failure_no_call a, ?_, ?_⟩
  · intro g u d h
    obtain ⟨h1, h2, _, _⟩ := action_http_call_inversion a g u d h
    exact ⟨h1, h2⟩
  · intro g u d h
    obtain ⟨h1, h2, _, _, _⟩ := command_http_call_inversion c g u d h
    exact ⟨h1, h2⟩
  · intro h
    rw [command_denied_eq c h]
    refine ⟨rfl, user_perm_reason_of_denied _ _ _ _ h, ?_⟩
    intro g u d
    simp

/-- Concrete Action input for the C1 witness: open permissions, numeric
target, successful moderation response. -/
def c1_action_input : ActionInput :=
  { is_group := true, platform := "qq", group_id := some "g1",
    allowed_groups := [], user_id_param := some "123", duration := 600,
    reason := "r", person_lookup := fun _ => "", person_value := fun _ => "",
    rewrite := fun _ => none, templates := none, template_choice := 0,
    http := HttpResult.response 200 (some ⟨some "ok", some 0⟩) }

/-- Concrete Command input for the C1 witness: actor not on the non-empty
allow-list, so the gate denies. -/
def c1_command_input : CommandInput :=
  { has_chat_stream := true, platform := "qq", actor_user_id := "2",
    allowed_users := ["qq:1"], command := "mute", user_id := some "42",
    duration_str := none, reason := none, default_duration := 600,
    group_id := some "g1", templates := none, template_choice := 0,
    http := HttpResult.response 200 (some ⟨some "ok", some 0⟩) }

/-- Witness for C1 at a completed Action call and a denied Command. -/
theorem c1_call_only_after_resolution_and_permission_witness :
    (check_group_permission true "qq" "g1" []).1 = true ∧
    (resolve_user_id "123" (fun _ => "") (fun _ => "")).1 = some "123" ∧
    (command_execute c1_command_input).1.1 = false :=
  ⟨((c1_call_only_after_resolution_and_permission c1_action_input
      c1_command_input).1 "g1" "123" 600 (by decide)).1,
   ((c1_call_only_after_resolution_and_permission c1_action_input
      c1_command_input).1 "g1" "123" 600 (by decide)).2,
   ((c1_call_only_after_resolution_and_permission c1_action_input
      c1_command_input).2.2.2 (by decide)).1⟩

/-- Concrete Command input for C2: `/mute 42 3000000` with open permissions
and a successful moderation response; 3000000 exceeds the claimed
2592000-second cap. -/
def c2_command_input : CommandInput :=
  { has_chat_stream := true, platform := "qq", actor_user_id := "9",
    allowed_users := [], command := "mute", user_id := some "42",
    duration_str := some "3000000", reason := none, default_duration := 600,
    group_id := some "g1", templates := none, template_choice := 0,
    http := HttpResult.response 200 (some ⟨some "ok", some 0⟩) }

/-- C2 counterexample: the out-of-range duration 3000000 is sent to the
moderation endpoint as-is — not replaced by the configured default 600 and
not within [0, 2592000]. -/
theorem c2_counterexample_out_of_range_passthrough :
    Event.httpCall "g1" "42" 3000000 ∈ (command_execute c2_command_input).2 ∧
    (3000000 : Int) ≠ 600 ∧ ¬((3000000 : Int) ≤ 2592000) :=
  ⟨by decide, by decide, by decide⟩

/-- Concrete Action input for the C2 witness: raw duration 3000000 passed
through `action_data` and sent unchanged. -/
def c2_action_input : ActionInput :=
  { is_group := true, platform := "qq", group_id := some "g1",
    allowed_groups := [], user_id_param := some "123", duration := 3000000,
    reason := "r", person_lookup := fun _ => "", person_value := fun _ => "",
    rewrite := fun _ => none, templates := none, template_choice := 0,
    http := HttpResult.response 200 (some ⟨some "ok", some 0⟩) }

/-- C2 amended: no range normalization exists — the Command sends the
integer parsed from the supplied duration argument unchanged (even outside
[1, 2592000]), falls back to the configured default only when the argument
is absent, and sends 0 for `/unmute`; the Action sends the raw
`action_data` duration unchanged. -/
theorem c2_amended_no_duration_normalization :
    (∀ (s : String) (dflt : Int),
      command_duration "mute" (some s) dflt = (parse_digits s : Int)) ∧
    (∀ dflt : Int, command_duration "mute" none dflt = dflt) ∧
    (∀ (ds : Option String) (dflt : Int), command_duration "unmute" ds dflt = 0) ∧
    (∀ (c : CommandInput) (g u : String) (d : Int),
      Event.httpCall g u d ∈ (command_execute c).2 →
      d = command_duration c.command c.duration_str c.default_duration) ∧
    (∀ (a : ActionInput) (g u : String) (d : Int),
      Event.httpCall g u d ∈ (action_execute a).2 → d = a.duration) := by
  refine ⟨fun s dflt => rfl, fun dflt => rfl, ?_, ?_, ?_⟩
  · intro ds dflt
    simp [command_duration]
  · intro c g u d h
    exact (command_http_call_inversion c g u d h).2.2.2.2
  · intro a g u d h
    exact (action_http_call_inversion a g u d h).2.2.2

/-- Witness for C2 amended, at a supplied out-of-range duration, an absent
duration, an `/unmute` with a supplied duration, and the two concrete
invocations. -/
theorem c2_amended_no_duration_normalization_witness :
    command_duration "mute" (some "3000000") 600 = (parse_digits "3000000" : Int) ∧
    command_duration "mute" none 600 = 600 ∧
    command_duration "unmute" (some "7") 600 = 0 ∧
    (3000000 : Int) = command_duration "mute" (some "3000000") 600 ∧
    (3000000 : Int) = c2_action_input.duration :=
  ⟨c2_amended_no_duration_normalization.1 "3000000" 600,
   c2_amended_no_duration_normalization.2.1 600,
   c2_amended_no_duration_normalization.2.2.1 (some "7") 600,
   c2_amended_no_duration_normalization.2.2.2.1 c2_command_input "g1" "42" 3000000
     (by decide),
   c2_amended_no_duration_normalization.2.2.2.2 c2_action_input "g1" "123" 3000000
     (by decide)⟩

/-- Concrete Action input for C3: the group is not on the non-empty
allow-list, so the gate denies, yet the target is a non-numeric name that
gets resolved through the directory. -/
def c3_action_input : ActionInput :=
  { is_group := true, platform := "qq", group_id := some "g1",
    allowed_groups := ["qq:other"], user_id_param := some "alice",
    duration := 600, reason := "r", person_lookup := fun _ => "p1",
    person_value := fun _ => "111", rewrite := fun _ => none,
    templates := none, template_choice := 0,
    http := HttpResult.response 200 (some ⟨some "ok", some 0⟩) }

/-- C3 counterexample: with a denied group gate the Action still invokes
the directory lookup and the attribute fetch before consulting the
permission result (the claim says the resolver is never invoked on
denial). -/
theorem c3_counterexample_resolver_invoked_on_denial :
    (check_group_permission c3_action_input.is_group c3_action_input.platform
      (c3_action_input.group_id.getD "None") c3_action_input.allowed_groups).1 =
      false ∧
    Event.resolverLookup "alice" ∈ (action_execute c3_action_input).2 ∧
    Event.attrFetch "p1" ∈ (action_execute c3_action_input).2 ∧
    (action_execute c3_action_input).1.1 = false :=
  ⟨by decide, by decide, by decide, by decide⟩

/-- Concrete Command input for the C3 witness: actor off the allow-list. -/
def c3_command_input : CommandInput :=
  { has_chat_stream := true, platform := "qq", actor_user_id := "2",
    allowed_users := ["qq:1"], command := "mute", user_id := some "42",
    duration_str := none, reason := none, default_duration := 600,
    group_id := some "g1", templates := none, template_choice := 0,
    http := HttpResult.response 200 (some ⟨some "ok", some 0⟩) }

/-- C3 amended: on a denied gate neither entry point performs the
moderation call and both return failure; the Command returns immediately
with only the denial notice, but the Action may still have invoked the
identity resolver, whose calls precede the permission consultation. -/
theorem c3_amended_denial_blocks_moderation_only (a : ActionInput)
    (c : CommandInput) :
    ((check_group_permission a.is_group a.platform (a.group_id.getD "None")
        a.allowed_groups).1 = false →
      (action_execute a).1.1 = false ∧
      ∀ (g u : String) (d : Int), Event.httpCall g u d ∉ (action_execute a).2) ∧
    ((check_user_permission c.has_chat_stream c.platform c.actor_user_id
        c.allowed_users).1 = false →
      command_execute c =
        ((false, (check_user_permission c.has_chat_stream c.platform
            c.actor_user_id c.allowed_users).2),
          [Event.sendText ("❌ " ++
            ((check_user_permission c.has_chat_stream c.platform c.actor_user_id
              c.allowed_users).2).getD "")])) := by
  constructor
  · intro h
    obtain ⟨h1, _, h3⟩ := action_failure_no_call a (Or.inl h)
    exact ⟨h1, h3⟩
  · exact command_denied_eq c

/-- Witness for C3 amended at the two concrete denied invocations. -/
theorem c3_amended_denial_blocks_moderation_only_witness :
    (action_execute c3_action_input).1.1 = false ∧
    command_execute c3_command_input =
      ((false, some "你没有使用禁言命令的权限"),
        [Event.sendText ("❌ " ++ "你没有使用禁言命令的权限")]) :=
  ⟨((c3_amended_denial_blocks_moderation_only c3_action_input
      c3_command_input).1 (by decide)).1,
   (c3_amended_denial_blocks_moderation_only c3_action_input
      c3_command_input).2 (by decide)⟩

/-- Concrete Action input for C8: resolved numeric target, open
permissions, rewriter echoing the confirmation, moderation endpoint
replying HTTP 500. -/
def c8_action_input : ActionInput :=
  { is_group := true, platform := "qq", group_id := some "g1",
    allowed_groups := [], user_id_param := some "123", duration := 600,
    reason := "r", person_lookup := fun _ => "", person_value := fun _ => "",
    rewrite := fun s => some s, templates := none, template_choice := 0,
    http := HttpResult.response 500 none }

/-- C8 (code bug, exhibited): on this failing Action invocation the
rendered confirmation message is passed to the reply rewriter and sent to
the chat (trace positions 0 and 1) before the moderation HTTP call (trace
position 2), and the invocation then returns failure — success narration
was emitted without a confirmed successful moderation response. -/
theorem c8_confirmation_sent_before_moderation_call :
    ((action_execute c8_action_input).2)[0]? =
      some (Event.rewriteReply
        "操作已执行：对用户 123 禁言，时长：600秒，原因：r") ∧
    ((action_execute c8_action_input).2)[1]? =
      some (Event.sendText
        "操作已执行：对用户 123 禁言，时长：600秒，原因：r") ∧
    ((action_execute c8_action_input).2)[2]? =
      some (Event.httpCall "g1" "123" 600) ∧
    (action_execute c8_action_input).1.1 = false :=
  ⟨by decide, by decide, by decide, by decide⟩

/-- C10: for an `/unmute` Command invocation the computed duration is 0
regardless of any supplied duration argument, every moderation call in the
trace carries duration 0, the success confirmation is rendered with
duration 0, and at duration 0 the rendered message is independent of the
mute pool (only the unmute pool matters). -/
theorem c10_unmute_zero_duration_and_unmute_pool (c : CommandInput)
    (h : c.command = "unmute") :
    command_duration c.command c.duration_str c.default_duration = 0 ∧
    (∀ (g u : String) (d : Int),
      Event.httpCall g u d ∈ (command_execute c).2 → d = 0) ∧
    ((command_execute c).1.1 = true →
      Event.sendText (get_template_message c.templates c.template_choice
        (c.user_id.getD "") 0 (c.reason.getD "管理员操作")) ∈
        (command_execute c).2) ∧
    (∀ (mt mt' ut : Option (List Template)) (choice : Nat) (uid r : String),
      get_template_message (some ⟨mt, ut⟩) choice uid 0 r =
        get_template_message (some ⟨mt', ut⟩) choice uid 0 r) := by
  have hd : command_duration c.command c.duration_str c.default_duration = 0 := by
    rw [h]
    simp [command_duration]
  refine ⟨hd, ?_, ?_, ?_⟩
  · intro g u d hm
    rw [(command_http_call_inversion c g u d hm).2.2.2.2, hd]
  · intro hs
    have hmem := command_success_sends_message c hs
    rwa [hd] at hmem
  · intro mt mt' ut choice uid r
    simp [get_template_message, selected_templates]

/-- Concrete Command input for the C10 witness: `/unmute 42 999` with open
permissions and a successful moderation response. -/
def c10_command_input : CommandInput :=
  { has_chat_stream := true, platform := "qq", actor_user_id := "9",
    allowed_users := [], command := "unmute", user_id := some "42",
    duration_str := some "999", reason := none, default_duration := 600,
    group_id := some "g1", templates := none, template_choice := 0,
    http := HttpResult.response 200 (some ⟨some "ok", some 0⟩) }

/-- Witness for C10 at the concrete `/unmute` invocation. -/
theorem c10_unmute_zero_duration_and_unmute_pool_witness :
    command_duration "unmute" (some "999") 600 = 0 ∧
    (0 : Int) = 0 ∧
    Event.sendText (get_template_message none 0 "42" 0 "管理员操作") ∈
      (command_execute c10_command_input).2 :=
  ⟨(c10_unmute_zero_duration_and_unmute_pool c10_command_input rfl).1,
   (c10_unmute_zero_duration_and_unmute_pool c10_command_input rfl).2.1
     "g1" "42" 0 (by decide),
   (c10_unmute_zero_duration_and_unmute_pool c10_command_input rfl).2.2.1
     (by decide)⟩

/-- Witness for C6 amended at 3661 seconds. -/
theorem c6_amended_raw_seconds_display_witness :
    get_template_message (some c6_template_dict) 0 "123" 3661 "r" =
      toString (3661 : Int) ++ "秒" :=
  c6_amended_raw_seconds_display 3661 0 "123" "r"
